import Mathlib

/-!
Verification development for the `langchain-code-generator` repository.

The repository is a retry-driven code-generation pipeline: a LangGraph state
machine (`src/workflow.py`) drives four nodes (`src/nodes.py`) — generator,
syntax checker, rectifier, executor — over a shared mutable state record
(`src/state.py`). The rectifier engine (`src/code_rectifier.py`) applies
pattern-based fixes and escalates to an AI collaborator. Two execution
backends live in `src/sandbox_executor.py` and `src/fastapi_executor.py`.

This file gives a shallow embedding of those components and proves or
refutes the frozen behavioural claims about them. External collaborators
(the language model, flake8, black/autopep8, the sandbox and the Python
`ast` parser) are modelled as oracle parameters: every claim about the
orchestration is quantified over all collaborator behaviours.

Python conventions used throughout the embedding:
  * a missing/`None` string field is modelled as `""` (both are falsy);
  * `str.strip` is `String.trim`, `str.split` on a newline is
    `String.splitOn "\n"`, `"x" in s` is substring search (`pyIn`);
  * float confidence scores are modelled as exact rationals;
  * dictionaries with a fixed key set are structures with those fields.
-/

/-- The ASCII single-quote character, kept out of string literals. -/
def quoteChar : Char := Char.ofNat 39

/-- A one-character string holding a single quote. -/
def sQuote : String := String.singleton quoteChar

/-- Boolean infix (contiguous sublist) test on character lists. -/
def listInfix (needle : List Char) : List Char → Bool
  | [] => needle.isEmpty
  | c :: rest => needle.isPrefixOf (c :: rest) || listInfix needle rest

/-- Python whitespace characters (`str.strip` removes these). -/
def pyWsChar (c : Char) : Bool :=
  c = Char.ofNat 32 || c = Char.ofNat 9 || c = Char.ofNat 10 ||
  c = Char.ofNat 13 || c = Char.ofNat 11 || c = Char.ofNat 12

/-- Python `str.strip`. Defined over the character list so that it reduces
in the kernel (the builtin `String.trim` works on byte positions and does
not). -/
def pyStrip (s : String) : String :=
  String.mk (((s.data.dropWhile pyWsChar).reverse.dropWhile pyWsChar).reverse)

/-- Python `str.lstrip`. -/
def pyLstrip (s : String) : String :=
  String.mk (s.data.dropWhile pyWsChar)

/-- ASCII lower-casing of one character. -/
def lowerChar (c : Char) : Char :=
  if 65 ≤ c.toNat ∧ c.toNat ≤ 90 then Char.ofNat (c.toNat + 32) else c

/-- Python `str.lower` (the repository only lower-cases ASCII text). -/
def pyLower (s : String) : String :=
  String.mk (s.data.map lowerChar)

/-- Python `str.startswith`. -/
def pyStartsWith (s p : String) : Bool :=
  p.data.isPrefixOf s.data

/-- Python `str.endswith`. -/
def pyEndsWith (s p : String) : Bool :=
  p.data.isSuffixOf s.data

/-- Accumulator loop for `pyLines`. -/
def splitLinesAux : List Char → List Char → List String
  | [], cur => [String.mk cur.reverse]
  | c :: rest, cur =>
    if c = Char.ofNat 10 then String.mk cur.reverse :: splitLinesAux rest []
    else splitLinesAux rest (c :: cur)

/-- Python `str.split chr(10)` on newlines (so `pyLines "" = [""]`). -/
def pyLines (s : String) : List String :=
  splitLinesAux s.data []

/-- Python `sep.join(parts)`. -/
def pyJoin (sep : String) : List String → String
  | [] => ""
  | [x] => x
  | x :: y :: rest => x ++ sep ++ pyJoin sep (y :: rest)

/-- Python `needle in haystack` substring test. -/
def pyIn (needle haystack : String) : Bool :=
  listInfix needle.data haystack.data

/-- Python `list.insert(idx, x)` (with `idx` never past the end here). -/
def pyInsert (l : List String) (idx : Nat) (x : String) : List String :=
  l.take idx ++ [x] ++ l.drop idx

/-- Confidence constant 0.95 (as the reduced rational 19/20). -/
def q095 : ℚ := ⟨19, 20, by decide, by decide⟩

/-- Confidence constant 0.9 (as 9/10). -/
def q09 : ℚ := ⟨9, 10, by decide, by decide⟩

/-- Confidence constant 0.8 (as 4/5). -/
def q08 : ℚ := ⟨4, 5, by decide, by decide⟩

/-- Confidence constant 0.7 (as 7/10). -/
def q07 : ℚ := ⟨7, 10, by decide, by decide⟩

/-- Confidence constant 0.5 (as 1/2). -/
def q05 : ℚ := ⟨1, 2, by decide, by decide⟩

/-- Result record of `_analyze_error` in `src/code_rectifier.py`
(`error_column` is always `None` and `suggested_fixes` always `[]`,
so they are omitted). -/
structure ErrorAnalysis where
  error_type : String
  error_line : Option Nat
  error_description : String
  deriving Repr, DecidableEq

/-- Scan a character list for the first maximal digit run, returning it and
the remaining characters. Used by the `line (\d+)` extraction. -/
def takeDigits : List Char → (List Char × List Char)
  | [] => ([], [])
  | c :: rest =>
    if c.isDigit then
      let (ds, r) := takeDigits rest
      (c :: ds, r)
    else ([], c :: rest)

/-- Digits to a natural number (the regex capture is all digits). -/
def digitsToNat (ds : List Char) : Nat :=
  ds.foldl (fun acc c => acc * 10 + (c.toNat - 48)) 0

/-- Search for the regex `line (\d+)`: the first occurrence of the literal
`"line "` followed by at least one digit; returns the captured number. -/
def scanLineNum : List Char → Option Nat
  | [] => none
  | c :: rest =>
    let here := c :: rest
    if ("line ".toList).isPrefixOf here then
      let after := here.drop 6
      let (ds, _) := takeDigits after
      if ds ≠ [] then some (digitsToNat ds) else scanLineNum rest
    else scanLineNum rest

/-- Embeds `_analyze_error` from `src/code_rectifier.py` lines 76-107: classify the
error message by (case-sensitive) substring and extract a `line N` number. -/
def analyzeError (error_message : String) : ErrorAnalysis :=
  let etype :=
    if pyIn "SyntaxError" error_message then "SyntaxError"
    else if pyIn "NameError" error_message then "NameError"
    else if pyIn "ImportError" error_message || pyIn "ModuleNotFoundError" error_message then
      "ImportError"
    else if pyIn "IndentationError" error_message then "IndentationError"
    else if pyIn "AttributeError" error_message then "AttributeError"
    else if pyIn "TypeError" error_message then "TypeError"
    else if pyIn "ValueError" error_message then "ValueError"
    else "Unknown"
  { error_type := etype
    error_line := scanLineNum error_message.data
    error_description := error_message }

/-- Return record of one pattern-fix function (a Python dict with keys
`code`, `changes`, `confidence`). -/
structure FixResult where
  code : String
  changes : List String
  confidence : ℚ
  deriving Repr, DecidableEq

/-- Partition lines into `__future__` imports and the rest, preserving
order (the loop body of `_fix_future_imports`). -/
def splitFuture : List String → (List String × List String)
  | [] => ([], [])
  | l :: rest =>
    let (f, o) := splitFuture rest
    if pyIn "from __future__ import" (pyStrip l) then (l :: f, o) else (f, l :: o)

/-- Embeds `_fix_future_imports` (`src/code_rectifier.py` lines 131-159). -/
def fixFutureImports (code _msg : String) : FixResult :=
  let lines := pyLines code
  let (shebang, body) :=
    match lines with
    | [] => (([] : List String), ([] : List String))
    | l0 :: rest =>
      if pyStartsWith l0 "#!" then ([l0], rest) else ([], l0 :: rest)
  let (futures, others) := splitFuture body
  { code := pyJoin "\n" (shebang ++ futures ++ others)
    changes := ["Moved __future__ imports to the beginning of the file"]
    confidence := q095 }

/-- Keyword heads checked by `_fix_invalid_syntax`. -/
def colonHeads : List String :=
  ["if ", "elif ", "else", "for ", "while ", "def ", "class ", "try",
   "except", "finally", "with "]

/-- Embeds `_fix_invalid_syntax` (`src/code_rectifier.py` lines 175-192): append a
colon to control-structure lines that lack one. -/
def fixInvalidSyntax (code _msg : String) : FixResult :=
  let lines := pyLines code
  let fixedPairs := lines.enum.map (fun p =>
    let stripped := pyStrip p.2
    if colonHeads.any (fun h => pyStartsWith stripped h) && !(pyEndsWith stripped ":") then
      (p.2 ++ ":", ["Added missing colon on line " ++ toString (p.1 + 1)])
    else (p.2, []))
  let changes := fixedPairs.foldr (fun p acc => p.2 ++ acc) []
  { code := pyJoin "\n" (fixedPairs.map (·.1))
    changes := changes
    confidence := if changes ≠ [] then q08 else 0 }

/-- Embeds `_fix_indentation_error` (`src/code_rectifier.py` lines 254-281):
replace tab-bearing leading whitespace by 4-space-per-tab indents. -/
def fixIndentationError (code _msg : String) : FixResult :=
  let lines := pyLines code
  let fixedPairs := lines.enum.map (fun p =>
    let line := p.2
    if pyStrip line ≠ "" then
      let leading := line.data.takeWhile pyWsChar
      if leading.contains (Char.ofNat 9) then
        let tabs := leading.count (Char.ofNat 9)
        let spaces := leading.count (Char.ofNat 32)
        let newIndent :=
          String.mk (List.replicate tabs ' ' ++ List.replicate tabs ' ' ++
                     List.replicate tabs ' ' ++ List.replicate tabs ' ' ++
                     List.replicate spaces ' ')
        (newIndent ++ pyLstrip line,
         ["Normalized indentation on line " ++ toString (p.1 + 1)])
      else (line, [])
    else (line, []))
  let changes := fixedPairs.foldr (fun p acc => p.2 ++ acc) []
  { code := pyJoin "\n" (fixedPairs.map (·.1))
    changes := changes
    confidence := if changes ≠ [] then q08 else 0 }

/-- Embeds `_analyze_syntax_error` (`src/code_rectifier.py` lines 161-173). The
Python `ast.parse` call is an external dependency of the embedding; its
outcome is the oracle `astO` (`none` = parses, `some e` = raises
`SyntaxError` with message `e`). -/
def analyzeSyntaxError (astO : Option String) (code _msg : String) : FixResult :=
  match astO with
  | none => { code := code, changes := [], confidence := 0 }
  | some e =>
    if pyIn "invalid syntax" (pyLower e) then fixInvalidSyntax code e
    else if pyIn "unexpected indent" (pyLower e) then fixIndentationError code e
    else { code := code, changes := [], confidence := 0 }

/-- Try to match the regex `name '([^']+)' is not defined` at the head of a
character list: literal `name '`, a non-empty quote-free capture, then
`' is not defined`. -/
def nameMatchHere (l : List Char) : Option String :=
  if (("name " ++ sQuote).toList).isPrefixOf l then
    let after := l.drop 6
    let nm := after.takeWhile (fun c => c ≠ quoteChar)
    let rest := after.drop nm.length
    if nm ≠ [] && ((sQuote ++ " is not defined").toList).isPrefixOf rest then
      some (String.mk nm)
    else none
  else none

/-- First match of `name '([^']+)' is not defined` anywhere in the list
(the `re.search` in `_fix_name_error`). -/
def scanNameNotDefined : List Char → Option String
  | [] => none
  | c :: rest =>
    match nameMatchHere (c :: rest) with
    | some nm => some nm
    | none => scanNameNotDefined rest

/-- The `common_imports` table of `_fix_name_error`. -/
def commonImports : List (String × String) :=
  [("math", "import math"), ("os", "import os"), ("sys", "import sys"),
   ("random", "import random"), ("datetime", "import datetime"),
   ("re", "import re"), ("json", "import json"), ("time", "import time"),
   ("collections", "import collections"), ("itertools", "import itertools"),
   ("numpy", "import numpy as np"), ("pandas", "import pandas as pd"),
   ("plt", "import matplotlib.pyplot as plt")]

/-- Insertion-index loop of `_fix_name_error` (`src/code_rectifier.py`
lines 226-233): walk lines with index `i` and accumulator `idx`; a
`__future__` import sets `idx := i + 1`, comments and blanks are skipped,
and the first other line breaks the loop. -/
def insertIdxAux : List String → Nat → Nat → Nat
  | [], _, idx => idx
  | l :: rest, i, idx =>
    if pyStartsWith (pyStrip l) "from __future__" then insertIdxAux rest (i + 1) (i + 1)
    else if pyStartsWith (pyStrip l) "#" || pyStrip l = "" then insertIdxAux rest (i + 1) idx
    else idx

/-- Insertion index for a missing import, starting the loop at zero. -/
def insertIdxL (lines : List String) : Nat :=
  insertIdxAux lines 0 0

/-- Embeds `_fix_name_error` (`src/code_rectifier.py` lines 194-244). -/
def fixNameError (code msg : String) : FixResult :=
  match scanNameNotDefined msg.data with
  | none => { code := code, changes := [], confidence := 0 }
  | some nm =>
    match (commonImports.find? (fun p => p.1 = nm)).map (·.2) with
    | none => { code := code, changes := [], confidence := 0 }
    | some imp =>
      let lines := pyLines code
      { code := pyJoin "\n" (pyInsert lines (insertIdxL lines) imp)
        changes := ["Added missing import: " ++ imp]
        confidence := q09 }

/-- A catalog entry with no concrete fix behaviour (`_fix_import_error`,
`_fix_module_not_found`, `_fix_attribute_error`, `_fix_type_error`,
`_fix_value_error`, `_fix_key_error`, `_fix_index_error`). -/
def fixNoop (code _msg : String) : FixResult :=
  { code := code, changes := [], confidence := 0 }

/-- Trigger test of the pattern loop in `_apply_pattern_fixes`:
`pattern.lower() in error_message.lower() or pattern == error_type`. -/
def trig (pat msg etype : String) : Bool :=
  pyIn (pyLower pat) (pyLower msg) || pat = etype

/-- Embeds `_apply_pattern_fixes` (`src/code_rectifier.py` lines 109-129): walk the
`error_patterns` dict in insertion order and apply the first fix whose
trigger fires (every fix returns a truthy dict, so the loop always breaks
at the first match; no fix raises). -/
def applyPatternFixes (astO : Option String) (code msg etype : String) :
    String × List String × ℚ :=
  let out := fun (r : FixResult) => (r.code, r.changes, r.confidence)
  if trig "from __future__ imports must occur at the beginning" msg etype then
    out (fixFutureImports code msg)
  else if trig "SyntaxError" msg etype then out (analyzeSyntaxError astO code msg)
  else if trig "NameError" msg etype then out (fixNameError code msg)
  else if trig "ImportError" msg etype then out (fixNoop code msg)
  else if trig "ModuleNotFoundError" msg etype then out (fixNoop code msg)
  else if trig "IndentationError" msg etype then out (fixIndentationError code msg)
  else if trig "AttributeError" msg etype then out (fixNoop code msg)
  else if trig "TypeError" msg etype then out (fixNoop code msg)
  else if trig "ValueError" msg etype then out (fixNoop code msg)
  else if trig "KeyError" msg etype then out (fixNoop code msg)
  else if trig "IndexError" msg etype then out (fixNoop code msg)
  else (code, [], 0)

/-- What `_ai_rectify_code` hands back to `rectify_code`: a dict whose keys
`success`, `code`, `changes`, `confidence` may each be absent. The JSON
path yields the parsed dict; the fenced-code fallback yields
`success=True, code=<block>, changes=["AI-generated fixes applied"],
confidence=0.7`; the failure path yields
`success=False, code=<input>, changes=[], confidence=0.0`. A falsy parse
result (the `if ai_result` guard) is modelled by `none` at the call site. -/
structure AiDict where
  success : Option Bool
  code : Option String
  changes : Option (List String)
  confidence : Option ℚ
  deriving Repr

/-- Engine response record (`CodeRectificationResponse` in `src/state.py`). -/
structure RectResponse where
  success : Bool
  rectified_code : String
  changes_made : List String
  error_analysis : ErrorAnalysis
  confidence_score : ℚ
  deriving Repr

/-- Embeds `CodeRectifier.rectify_code` (`src/code_rectifier.py` lines 36-74),
parameterised by the `ast.parse` oracle `astO` and the AI-collaborator
oracle `aiO` (`none` models a falsy parse result that skips the update). -/
def rectifyCode (astO : Option String) (aiO : Option AiDict)
    (original_code error_message : String) : RectResponse :=
  let analysis := analyzeError error_message
  let det := applyPatternFixes astO original_code error_message analysis.error_type
  let rc0 := det.1
  let ch0 := det.2.1
  let conf0 := det.2.2
  let fin :=
    if conf0 < q07 ∨ rc0 = "" then
      match aiO with
      | some d =>
        if d.success.getD false then
          (d.code.getD rc0, ch0 ++ d.changes.getD [],
           max conf0 (d.confidence.getD q05))
        else (rc0, ch0, conf0)
      | none => (rc0, ch0, conf0)
    else (rc0, ch0, conf0)
  { success := fin.1 ≠ "" && fin.1 ≠ original_code
    rectified_code := fin.1
    changes_made := fin.2.1
    error_analysis := analysis
    confidence_score := fin.2.2 }

/-- The `restricted_functions` denylist of `SafeCodeExecutor`
(`src/sandbox_executor.py` lines 84-88). The Python value is a set whose
iteration order is unspecified; it is embedded as a list in source order
(the claims below depend only on membership). -/
def restrictedFunctions : List String :=
  ["eval", "exec", "compile", "__import__", "open", "input",
   "raw_input", "file", "reload", "vars", "dir", "globals",
   "locals", "delattr", "setattr", "getattr", "hasattr"]

/-- Result dict of the execution backends (`success`, `output`, `error`;
`error` is `""` for Python `None`, and wall-clock `execution_time` is not
modelled). -/
structure ExecDict where
  success : Bool
  output : String
  error : String
  deriving Repr, DecidableEq

/-- Outcome of actually running a snippet in the restricted environment:
either it completes with captured stdout/stderr text, or a raised
exception with message `msg`. This is the oracle for the `exec` call. -/
inductive RunOutcome where
  | completes (stdout stderr : String)
  | raises (msg : String)
  deriving Repr

/-- The pre-execution safety loop of `SafeCodeExecutor.execute_code`
(`src/sandbox_executor.py` lines 95-102): the first denylisted name that
occurs as a substring of the code, checked only when the whole stripped
code does not start with a `#`. -/
def safetyViolation (code : String) : Option String :=
  restrictedFunctions.find? (fun r => pyIn r code && !(pyStartsWith (pyStrip code) "#"))

/-- The rejection dict built for a denylisted name. -/
def restrictedErrorDict (r : String) : ExecDict :=
  { success := false, output := ""
    error := "Restricted function " ++ sQuote ++ r ++ sQuote ++ " not allowed" }

/-- Embeds `SafeCodeExecutor.execute_code` (`src/sandbox_executor.py` lines
90-161): denylist check first, then execution in the restricted
environment (the oracle `run`). -/
def safeExecuteCode (run : RunOutcome) (code : String) : ExecDict :=
  match safetyViolation code with
  | some r => restrictedErrorDict r
  | none =>
    match run with
    | .completes out err =>
      { success := err.length = 0
        output := if out ≠ "" then out else "Code executed successfully (no output)"
        error := err }
    | .raises m =>
      { success := false, output := "", error := "Execution error: " ++ m }

/-- A non-comment line of `code` contains the denylisted name `r`:
the claim reading of "a denylisted identifier in executable, non-comment
text". -/
def hasRestrictedExecutable (code : String) : Prop :=
  ∃ l ∈ pyLines code, ∃ r ∈ restrictedFunctions,
    ¬ pyStartsWith (pyStrip l) "#" = true ∧ pyIn r l = true

instance : DecidablePred hasRestrictedExecutable := fun code => by
  unfold hasRestrictedExecutable; infer_instance

/-- References held by `sys.stdout` / `sys.stderr`, as object identities. -/
structure SysIO where
  stdout : Nat
  stderr : Nat
  deriving Repr, DecidableEq

/-- Behaviour of the `exec(code, {})` call in
`src/fastapi_executor.py`: the snippet either completes, printing
`printed` to the stream currently installed as `sys.stdout`, or raises
with traceback text `tb`. -/
inductive CodeRun where
  | completes (printed : String)
  | raises (tb : String)
  deriving Repr

/-- Result dict of `fastapi_executor.execute_code`. -/
structure FResult where
  success : Bool
  output : String
  error : String
  deriving Repr, DecidableEq

/-- Full observable effect of one `fastapi_executor.execute_code` call:
the returned dict, the identities of the fresh capture buffers installed
during execution, and the `sys` state after the call. -/
structure FExec where
  result : FResult
  captureOut : Nat
  captureErr : Nat
  finalSys : SysIO
  deriving Repr, DecidableEq

/-- Embeds `execute_code` from `src/fastapi_executor.py` lines 26-45: save the
current `sys.stdout`/`sys.stderr`, install fresh `StringIO` buffers, run
the snippet, and restore the saved streams in the `finally` block on both
the normal and the exception path. Fresh buffer identities are chosen
above every existing identity. -/
def fastapiExecuteCode (run : CodeRun) (s0 : SysIO) : FExec :=
  let old_stdout := s0.stdout
  let old_stderr := s0.stderr
  let bufOut := max s0.stdout s0.stderr + 1
  let bufErr := max s0.stdout s0.stderr + 2
  let result :=
    match run with
    | .completes printed => { success := true, output := printed, error := "" }
    | .raises tb => { success := false, output := "", error := tb }
  { result := result
    captureOut := bufOut
    captureErr := bufErr
    finalSys := { stdout := old_stdout, stderr := old_stderr } }

/-- The shared workflow state record (`CodeGenerationState` in
`src/state.py`). `execution_results` is a dict with keys
`success`/`output`/`error` (missing keys default to falsy values, so the
initial `{}` is the all-default record); the optional `requirements` key
only feeds the generation prompt and is not modelled. -/
structure WFState where
  user_prompt : String
  generated_code : String
  syntax_errors : List String
  execution_results : ExecDict
  current_node : String
  retry_count : Nat
  execution_errors : List String
  rectified_code : String
  rectification_attempts : Nat
  error_analysis : ErrorAnalysis
  deriving Repr, DecidableEq

/-- Initial state built by `CodeGeneratorWorkflow.run`
(`src/workflow.py` lines 118-130). -/
def initState (prompt : String) : WFState :=
  { user_prompt := prompt
    generated_code := ""
    syntax_errors := []
    execution_results := { success := false, output := "", error := "" }
    current_node := "code_generator"
    retry_count := 0
    execution_errors := []
    rectified_code := ""
    rectification_attempts := 0
    error_analysis := { error_type := "", error_line := none, error_description := "" } }

/-- Behaviour of the language-model collaborator for one generation call:
a response text, or a raised exception. -/
inductive GenOutcome where
  | ok (content : String)
  | raises (msg : String)

/-- Markdown fence stripping in `CodeGeneratorNode._execute`
(`src/nodes.py` lines 51-59). -/
def stripResponse (content : String) : String :=
  let g := pyStrip content
  let g := if pyStartsWith g "```python" then String.mk (g.data.drop 9) else g
  let g := if pyEndsWith g "```" then String.mk (g.data.take (g.data.length - 3)) else g
  pyStrip g

/-- Embeds `CodeGeneratorNode._execute` (`src/nodes.py` lines 21-78). -/
def genStep (o : GenOutcome) (s : WFState) : WFState :=
  match o with
  | .ok content =>
    { s with generated_code := stripResponse content, current_node := "syntax_checker" }
  | .raises m =>
    { s with
      execution_results :=
        { success := false, error := "Code generation failed: " ++ m, output := "" }
      current_node := "end" }

/-- Behaviour of the linter/formatter collaborators for one
syntax-checker call: `flake` is the raw flake8 stdout (`none` when the
tool is unavailable, times out, or prints nothing), `fmt` is the
reformatted code produced by black or the autopep8 fallback (`none` when
neither produced output), and `raises` models an unexpected exception in
the node body. -/
inductive SynOutcome where
  | normal (flake : Option String) (fmt : Option String)
  | raises (msg : String)

/-- Nonempty-after-strip filter applied to flake8 output lines
(`src/nodes.py` lines 112-117). -/
def flakeLines (stdout : String) : List String :=
  (pyLines (pyStrip stdout)).filter (fun l => pyStrip l ≠ "")

/-- Embeds `SyntaxCheckerNode._execute` (`src/nodes.py` lines 84-178). -/
def synStep (o : SynOutcome) (s : WFState) : WFState :=
  let code := if s.rectified_code ≠ "" then s.rectified_code else s.generated_code
  if code = "" then
    { s with syntax_errors := ["No code to check"], current_node := "end" }
  else
    match o with
    | .normal flake fmt =>
      let syntax_errors := match flake with
        | some out => flakeLines out
        | none => []
      let code2 :=
        if ¬ syntax_errors.any (fun e => pyIn "SyntaxError" e) then
          match fmt with
          | some f => if f = "" then code else f
          | none => code
        else code
      let next :=
        if syntax_errors ≠ [] ∧ syntax_errors.any (fun e => pyIn "SyntaxError" e) then
          "code_rectifier"
        else "code_executor"
      { s with generated_code := code2, syntax_errors := syntax_errors,
               current_node := next }
    | .raises m =>
      { s with syntax_errors := ["Syntax checking failed: " ++ m],
               current_node := "code_rectifier" }

/-- Behaviour of one rectifier-node call: the engine response (itself a
deterministic function of the AI oracle, see `rectifyCode`), or an
exception escaping the engine call. -/
inductive RectOutcome where
  | engine (resp : RectResponse)
  | raises (msg : String)

/-- Code selected for rectification (`src/nodes.py` line 192). -/
def rectOrigCode (s : WFState) : String :=
  if s.rectified_code ≠ "" then s.rectified_code else s.generated_code

/-- Error message selected for rectification (`src/nodes.py` lines
196-201): the execution error if truthy, else the joined syntax errors. -/
def rectErrMsg (s : WFState) : String :=
  if s.execution_results.error ≠ "" then s.execution_results.error
  else if s.syntax_errors ≠ [] then pyJoin "; " s.syntax_errors
  else ""

/-- Embeds `CodeRectifierNode._execute` (`src/nodes.py` lines 187-267). -/
def rectStep (o : RectOutcome) (s : WFState) : WFState :=
  let original_code := rectOrigCode s
  let error_message := rectErrMsg s
  if error_message = "" ∨ original_code = "" then
    { s with current_node := "end" }
  else
    let attempts := s.rectification_attempts
    if attempts ≥ 3 then
      { s with current_node := "end"
               execution_results :=
                 { s.execution_results with
                   error := "Maximum rectification attempts reached. Final error: " ++
                            error_message } }
    else
      match o with
      | .engine resp =>
        if resp.success && resp.rectified_code ≠ "" then
          { s with rectified_code := resp.rectified_code
                   generated_code := resp.rectified_code
                   execution_errors := [error_message]
                   rectification_attempts := attempts + 1
                   error_analysis := resp.error_analysis
                   current_node := "syntax_checker" }
        else
          { s with current_node := "end"
                   rectification_attempts := attempts + 1
                   execution_results :=
                     { s.execution_results with
                       error := "Rectification failed: " ++ error_message } }
      | .raises m =>
        { s with current_node := "end"
                 rectification_attempts := attempts + 1
                 execution_results :=
                   { s.execution_results with
                     error := "Rectification error: " ++ m } }

/-- The rectifier node driven by the real engine: the node invokes
`rectify_code` on the selected code and error message, with the
`ast.parse` and AI oracles supplied. -/
def rectStepFull (astO : Option String) (aiO : Option AiDict) (s : WFState) : WFState :=
  rectStep (.engine (rectifyCode astO aiO (rectOrigCode s) (rectErrMsg s))) s

/-- Behaviour of one executor-node call: the backend result dict
(whichever backend the context dispatch selected), or an exception in
the node machinery. -/
inductive ExeOutcome where
  | result (success : Bool) (output : String) (error : String)
  | raises (msg : String)

/-- Embeds `CodeExecutorNode._execute` (`src/nodes.py` lines 273-374). Both
backends return a result dict; the dispatch between them does not affect
the state transition, so the dict is the oracle. -/
def exeStep (o : ExeOutcome) (s : WFState) : WFState :=
  let code := if s.rectified_code ≠ "" then s.rectified_code else s.generated_code
  if code = "" then
    { s with execution_results :=
               { success := false, error := "No code to execute", output := "" }
             current_node := "end" }
  else
    match o with
    | .result success output error =>
      let er : ExecDict := { success := success, output := output, error := error }
      let next := if ¬ er.success ∧ er.error ≠ "" then "code_rectifier" else "end"
      { s with execution_results := er, current_node := next }
    | .raises m =>
      { s with execution_results :=
                 { success := false, error := "Execution error: " ++ m, output := "" }
               current_node := "code_rectifier" }

/-- Embeds `CodeGeneratorWorkflow._route_from_generator` (`src/workflow.py`
lines 79-81). -/
def routeFromGenerator (s : WFState) : String := s.current_node

/-- Embeds `CodeGeneratorWorkflow._route_from_syntax_checker` (lines 83-85). -/
def routeFromSyntaxChecker (s : WFState) : String := s.current_node

/-- Embeds `CodeGeneratorWorkflow._route_from_rectifier` (lines 87-99): the
retry guard forces `end` when either counter has reached 3. -/
def routeFromRectifier (s : WFState) : String :=
  if s.retry_count ≥ 3 ∨ s.rectification_attempts ≥ 3 then "end" else s.current_node

/-- Embeds `CodeGeneratorWorkflow._route_from_executor` (lines 101-103). -/
def routeFromExecutor (s : WFState) : String := s.current_node

/-- One collaborator behaviour for one node invocation (each field is
consulted only when the corresponding node runs at that step). -/
structure Behavior where
  gen : GenOutcome
  syn : SynOutcome
  rect : RectOutcome
  exe : ExeOutcome

/-- One LangGraph superstep: run the node named by the control token,
then apply the matching routing function to the updated state to obtain
the next token. Tokens other than the four node names are never produced
by the compiled graph and leave the configuration unchanged. -/
def stepC (b : Behavior) (cfg : String × WFState) : String × WFState :=
  if cfg.1 = "code_generator" then
    let t := genStep b.gen cfg.2; (routeFromGenerator t, t)
  else if cfg.1 = "syntax_checker" then
    let t := synStep b.syn cfg.2; (routeFromSyntaxChecker t, t)
  else if cfg.1 = "code_rectifier" then
    let t := rectStep b.rect cfg.2; (routeFromRectifier t, t)
  else if cfg.1 = "code_executor" then
    let t := exeStep b.exe cfg.2; (routeFromExecutor t, t)
  else cfg

/-- The drive loop of `workflow.invoke`: step until the routing token is
`end` or the fuel runs out, consuming one collaborator behaviour per node
invocation. -/
def drive (bs : Nat → Behavior) : Nat → String × WFState → String × WFState
  | 0, cfg => cfg
  | n + 1, cfg =>
    if cfg.1 = "end" then cfg
    else drive (fun i => bs (i + 1)) n (stepC (bs 0) cfg)

/-- Collaborator behaviour for one node invocation in the
fully-wired workflow, where the rectifier node calls the real engine:
the AI and `ast.parse` oracles replace the abstract engine response. -/
structure BehaviorF where
  gen : GenOutcome
  syn : SynOutcome
  astO : Option String
  aiO : Option AiDict
  exe : ExeOutcome

/-- One superstep of the fully-wired workflow. -/
def stepF (b : BehaviorF) (cfg : String × WFState) : String × WFState :=
  if cfg.1 = "code_generator" then
    let t := genStep b.gen cfg.2; (routeFromGenerator t, t)
  else if cfg.1 = "syntax_checker" then
    let t := synStep b.syn cfg.2; (routeFromSyntaxChecker t, t)
  else if cfg.1 = "code_rectifier" then
    let t := rectStepFull b.astO b.aiO cfg.2; (routeFromRectifier t, t)
  else if cfg.1 = "code_executor" then
    let t := exeStep b.exe cfg.2; (routeFromExecutor t, t)
  else cfg

/-- Drive loop of the fully-wired workflow. -/
def driveF (bs : Nat → BehaviorF) : Nat → String × WFState → String × WFState
  | 0, cfg => cfg
  | n + 1, cfg =>
    if cfg.1 = "end" then cfg
    else driveF (fun i => bs (i + 1)) n (stepF (bs 0) cfg)

/-- Final report assembled by the orchestrator: the (merged) final state,
the derived `workflow_status`, and the `error_message` key synthesized on
the exception path (`""` when absent). The `final_result` prose template
is presentation-only and not modelled. -/
structure Report where
  state : WFState
  workflow_status : String
  error_message : String
  deriving Repr, DecidableEq

/-- Active code selected by `_process_final_result`
(`src/workflow.py` lines 156-157): rectified code if truthy, else
generated code. -/
def finalCode (s : WFState) : String :=
  if s.rectified_code ≠ "" then s.rectified_code else s.generated_code

/-- Embeds `CodeGeneratorWorkflow._process_final_result` (`src/workflow.py`
lines 152-288), restricted to its observable fields: the merged state
with `current_node := "end"` and the `workflow_status` computed on lines
162-165 and 279-281. -/
def processFinalResult (s : WFState) : Report :=
  let final_code := finalCode s
  let workflow_success :=
    s.execution_results.success = true ∨
      (final_code ≠ "" ∧ s.execution_results.error = "")
  { state := { s with current_node := "end" }
    workflow_status :=
      if workflow_success ∨ final_code ≠ "" then "completed" else "failed"
    error_message := "" }

/-- Embeds `CodeGeneratorWorkflow.run` (`src/workflow.py` lines 105-150): the
graph invocation plus final-result processing may raise (modelled by the
`Except` outcome); the surrounding `try`/`except` converts any exception
into a failed report built over the initial state, so `run` is total. -/
def runModel (prompt : String) (outcome : Except String WFState) : Report :=
  match outcome with
  | .ok s => processFinalResult s
  | .error e =>
    { state := initState prompt
      workflow_status := "failed"
      error_message := "Workflow execution failed: " ++ e }

/-- Routing tokens that can ever hold the control position: the four node
names and the terminal token. -/
def validTok (c : String) : Prop :=
  c = "end" ∨ c = "code_generator" ∨ c = "syntax_checker" ∨
  c = "code_rectifier" ∨ c = "code_executor"

/-- Termination measure on a configuration: with `k` the number of full
rectification rounds still available (`2 - attempts`, clamped at 0), each
node name is ranked by its worst-case distance to `end`. -/
def rank (c : String) (a : Nat) : Nat :=
  let k := if a ≥ 2 then 0 else 2 - a
  if c = "code_rectifier" then 3 * k + 1
  else if c = "code_executor" then 3 * k + 2
  else if c = "syntax_checker" then 3 * k + 3
  else if c = "code_generator" then 3 * k + 4
  else 0

lemma genStep_node (o : GenOutcome) (s : WFState) :
    (genStep o s).current_node = "syntax_checker" ∨ (genStep o s).current_node = "end" := by
  cases o <;> simp [genStep]

lemma genStep_att (o : GenOutcome) (s : WFState) :
    (genStep o s).rectification_attempts = s.rectification_attempts := by
  cases o <;> rfl

lemma synStep_node (o : SynOutcome) (s : WFState) :
    (synStep o s).current_node = "end" ∨ (synStep o s).current_node = "code_rectifier" ∨
    (synStep o s).current_node = "code_executor" := by
  cases o <;> simp only [synStep] <;> split_ifs <;> simp

lemma synStep_att (o : SynOutcome) (s : WFState) :
    (synStep o s).rectification_attempts = s.rectification_attempts := by
  cases o <;> simp only [synStep] <;> split_ifs <;> simp

lemma exeStep_node (o : ExeOutcome) (s : WFState) :
    (exeStep o s).current_node = "end" ∨ (exeStep o s).current_node = "code_rectifier" := by
  cases o <;> simp only [exeStep] <;> split_ifs <;> simp

lemma exeStep_att (o : ExeOutcome) (s : WFState) :
    (exeStep o s).rectification_attempts = s.rectification_attempts := by
  cases o <;> simp only [exeStep] <;> split_ifs <;> simp

lemma rectStep_att (o : RectOutcome) (s : WFState) :
    (rectStep o s).rectification_attempts = s.rectification_attempts ∨
    ((rectStep o s).rectification_attempts = s.rectification_attempts + 1 ∧
      s.rectification_attempts < 3) := by
  cases o <;> simp only [rectStep] <;> split_ifs <;> simp <;> omega

lemma rectStep_node (o : RectOutcome) (s : WFState) :
    (rectStep o s).current_node = "end" ∨
    ((rectStep o s).current_node = "syntax_checker" ∧
      (rectStep o s).rectification_attempts = s.rectification_attempts + 1) := by
  cases o <;> simp only [rectStep] <;> split_ifs <;> simp

lemma rank_pos_of_node (c : String) (a : Nat)
    (h : c = "code_generator" ∨ c = "syntax_checker" ∨ c = "code_rectifier" ∨
         c = "code_executor") : 1 ≤ rank c a := by
  rcases h with h | h | h | h <;> subst h <;> simp [rank]

lemma rank_end (a : Nat) : rank "end" a = 0 := by simp [rank]

lemma stepC_progress (b : Behavior) (c : String) (s : WFState)
    (hv : validTok c) (hne : c ≠ "end") :
    validTok (stepC b (c, s)).1 ∧
      rank (stepC b (c, s)).1 (stepC b (c, s)).2.rectification_attempts <
        rank c s.rectification_attempts := by
  rcases hv with h | h | h | h | h
  · exact absurd h hne
  · subst h
    simp only [stepC, String.reduceEq, reduceIte, routeFromGenerator]
    rcases genStep_node b.gen s with h1 | h1 <;>
      rw [h1] <;> rw [genStep_att] <;>
      simp [validTok, rank]
  · subst h
    simp only [stepC, String.reduceEq, reduceIte, routeFromSyntaxChecker]
    rcases synStep_node b.syn s with h1 | h1 | h1 <;>
      rw [h1] <;> rw [synStep_att] <;>
      simp [validTok, rank]
  · subst h
    simp only [stepC, String.reduceEq, reduceIte, routeFromRectifier]
    by_cases hg : (rectStep b.rect s).retry_count ≥ 3 ∨
        (rectStep b.rect s).rectification_attempts ≥ 3
    · rw [if_pos hg]
      refine ⟨Or.inl rfl, ?_⟩
      rw [rank_end]
      exact rank_pos_of_node _ _ (Or.inr (Or.inr (Or.inl rfl)))
    · rw [if_neg hg]
      push_neg at hg
      rcases rectStep_node b.rect s with h1 | ⟨h1, h2⟩
      · rw [h1, rank_end]
        exact ⟨Or.inl rfl, rank_pos_of_node _ _ (Or.inr (Or.inr (Or.inl rfl)))⟩
      · rw [h1, h2]
        refine ⟨Or.inr (Or.inr (Or.inl rfl)), ?_⟩
        have h3 : s.rectification_attempts + 1 < 3 := by
          have := hg.2; omega
        have h4 : s.rectification_attempts = 0 ∨ s.rectification_attempts = 1 := by omega
        rcases h4 with h4 | h4 <;> simp [rank, h4]
  · subst h
    simp only [stepC, String.reduceEq, reduceIte, routeFromExecutor]
    rcases exeStep_node b.exe s with h1 | h1 <;>
      rw [h1] <;> rw [exeStep_att] <;>
      simp [validTok, rank]

lemma drive_reaches_end (n : Nat) (bs : Nat → Behavior) (c : String) (s : WFState)
    (hv : validTok c) (hr : rank c s.rectification_attempts ≤ n) :
    (drive bs n (c, s)).1 = "end" := by
  induction n generalizing bs c s with
  | zero =>
    rcases hv with h | h
    · simpa [drive] using h
    · exact absurd hr (by have := rank_pos_of_node c s.rectification_attempts h; omega)
  | succ n ih =>
    by_cases he : c = "end"
    · simp [drive, he]
    · rw [drive, if_neg (show ¬((c, s).1 = "end") from he)]
      obtain ⟨hv', hlt⟩ := stepC_progress (bs 0) c s hv he
      exact ih (fun i => bs (i + 1)) (stepC (bs 0) (c, s)).1 (stepC (bs 0) (c, s)).2 hv'
        (by omega)

/-- Claim C1: for every call to `run` and every behaviour of the external
collaborators, the drive loop reaches the terminal token `end` within at
most 12 node invocations (the measure argument in fact bounds it by 10):
the guard at the `code_rectifier` exit forces `end` once
`retry_count >= 3` or `rectification_attempts >= 3`, so no collaborator
behaviour can cycle the graph unboundedly. -/
theorem c1_run_terminates_within_12_nodes (bs : Nat → Behavior) (prompt : String) :
    (drive bs 12 ("code_generator", initState prompt)).1 = "end" := by
  apply drive_reaches_end
  · exact Or.inr (Or.inl rfl)
  · simp [rank, initState]

lemma stepC_att_le (b : Behavior) (cfg : String × WFState)
    (h : cfg.2.rectification_attempts ≤ 3) :
    (stepC b cfg).2.rectification_attempts ≤ 3 := by
  unfold stepC
  split_ifs
  · simpa [genStep_att] using h
  · simpa [synStep_att] using h
  · rcases rectStep_att b.rect cfg.2 with h1 | ⟨h1, h2⟩ <;> simp [h1] <;> omega
  · simpa [exeStep_att] using h
  · exact h

lemma drive_att_le (n : Nat) (bs : Nat → Behavior) (cfg : String × WFState)
    (h : cfg.2.rectification_attempts ≤ 3) :
    (drive bs n cfg).2.rectification_attempts ≤ 3 := by
  induction n generalizing bs cfg with
  | zero => simpa [drive] using h
  | succ n ih =>
    rw [drive]
    split
    · exact h
    · exact ih _ _ (stepC_att_le (bs 0) cfg h)

/-- Claim C2: for every collaborator behaviour and any number of steps,
the `rectification_attempts` counter of the reached state is at most 3;
moreover the rectifier node increments it by at most 1 per invocation,
refuses to increment and routes to `end` once the counter has reached 3,
and the orchestrator guard forces `end` at the rectifier exit whenever
the counter is at least 3. -/
theorem c2_rectification_attempts_le_three :
    (∀ (bs : Nat → Behavior) (prompt : String) (n : Nat),
      (drive bs n ("code_generator", initState prompt)).2.rectification_attempts ≤ 3) ∧
    (∀ (o : RectOutcome) (s : WFState),
      (rectStep o s).rectification_attempts ≤ s.rectification_attempts + 1) ∧
    (∀ (o : RectOutcome) (s : WFState), 3 ≤ s.rectification_attempts →
      (rectStep o s).rectification_attempts = s.rectification_attempts ∧
      (rectStep o s).current_node = "end") ∧
    (∀ s : WFState, 3 ≤ s.rectification_attempts → routeFromRectifier s = "end") := by
  refine ⟨?_, ?_, ?_, ?_⟩
  · intro bs prompt n
    exact drive_att_le n bs _ (by simp [initState])
  · intro o s
    rcases rectStep_att o s with h | ⟨h, _⟩ <;> omega
  · intro o s h3
    have hatt := rectStep_att o s
    have hnode := rectStep_node o s
    constructor
    · rcases hatt with h | ⟨h, hlt⟩
      · exact h
      · omega
    · rcases hnode with h | ⟨h, hinc⟩
      · exact h
      · rcases hatt with h' | ⟨h', hlt⟩ <;> omega
  · intro s h3
    simp [routeFromRectifier, Or.inr h3]

/-- A concrete state whose rectification counter already stands at the
ceiling, with code and a recorded execution error present. -/
def exhaustedState : WFState :=
  { initState "p" with
    generated_code := "x = 1"
    rectification_attempts := 3
    execution_results := { success := false, output := "", error := "boom" } }

/-- Witness for C2: at a concrete state whose counter already stands at
3, the rectifier node leaves the counter at 3 and routes to `end`, and
the orchestrator guard also forces `end`. -/
theorem c2_rectification_attempts_le_three_witness :
    (rectStep (.raises "boom") exhaustedState).rectification_attempts = 3 ∧
    (rectStep (.raises "boom") exhaustedState).current_node = "end" ∧
    routeFromRectifier exhaustedState = "end" := by
  obtain ⟨-, -, hceil, hguard⟩ := c2_rectification_attempts_le_three
  obtain ⟨h1, h2⟩ := hceil (.raises "boom") exhaustedState (by decide)
  exact ⟨h1.trans (by decide), h2, hguard exhaustedState (by decide)⟩

/-- A terminal state with generated code present, a failed execution and
a recorded execution error. -/
def c3State : WFState :=
  { initState "p" with
    generated_code := "x = 1"
    execution_results := { success := false, output := "", error := "boom" } }

/-- Claim C3 counterexample: at a terminal state whose active code is
non-empty but whose execution failed with a recorded error, the claimed
equivalence (completed iff success, or non-empty active code with no
recorded error) is false — `_process_final_result` still reports
`completed` because line 280 of `src/workflow.py` also accepts a bare
non-empty `final_code`. -/
theorem c3_counterexample :
    ¬ ((processFinalResult c3State).workflow_status = "completed" ↔
        (c3State.execution_results.success = true ∨
          (finalCode c3State ≠ "" ∧ c3State.execution_results.error = ""))) := by
  decide

/-- Claim C3 as amended: the finalizer reports `completed` exactly when
execution succeeded or the active code is non-empty (the "no execution
error recorded" condition of the claim is subsumed and does not bind). -/
theorem c3_completed_iff_success_or_code (s : WFState) :
    (processFinalResult s).workflow_status = "completed" ↔
      (s.execution_results.success = true ∨ finalCode s ≠ "") := by
  simp only [processFinalResult]
  split_ifs with h
  · simp only [true_iff]
    tauto
  · simp only [String.reduceEq, false_iff]
    tauto

/-- Claim C4: for every prompt and every exception raised inside the
drive loop or final-result processing, `run` returns a report with
`workflow_status = "failed"` and the synthesized error message; `runModel`
is a total function of the outcome, so no exception propagates. -/
theorem c4_run_catches_exceptions (prompt e : String) :
    (runModel prompt (Except.error e)).workflow_status = "failed" ∧
    (runModel prompt (Except.error e)).error_message =
      "Workflow execution failed: " ++ e := ⟨rfl, rfl⟩

/-- Claim C5: for every collaborator behaviour, code string and error
message, the engine response reports success exactly when the returned
rectified code is non-empty and differs from the input code. -/
theorem c5_success_iff_nonempty_and_changed (astO : Option String)
    (aiO : Option AiDict) (code msg : String) :
    (rectifyCode astO aiO code msg).success = true ↔
      ((rectifyCode astO aiO code msg).rectified_code ≠ "" ∧
        (rectifyCode astO aiO code msg).rectified_code ≠ code) := by
  simp only [rectifyCode]
  simp [Bool.and_eq_true, decide_eq_true_eq]

/-- Claim C10: `fastapi_executor.execute_code` restores `sys.stdout` and
`sys.stderr` to the objects they referenced before the call on both
return paths (the `finally` block), the installed capture buffers are
distinct from the caller's streams (so only they observe the executed
code's output), and the returned dict carries the captured output on the
normal path and the traceback on the exception path. -/
theorem c10_restores_stdio (run : CodeRun) (s0 : SysIO) :
    (fastapiExecuteCode run s0).finalSys = s0 ∧
    (fastapiExecuteCode run s0).captureOut ≠ s0.stdout ∧
    (fastapiExecuteCode run s0).captureOut ≠ s0.stderr ∧
    (fastapiExecuteCode run s0).captureErr ≠ s0.stdout ∧
    (fastapiExecuteCode run s0).captureErr ≠ s0.stderr ∧
    (∀ p : String, (fastapiExecuteCode (.completes p) s0).result =
      { success := true, output := p, error := "" }) ∧
    (∀ tb : String, (fastapiExecuteCode (.raises tb) s0).result =
      { success := false, output := "", error := tb }) := by
  refine ⟨rfl, ?_, ?_, ?_, ?_, fun p => rfl, fun tb => rfl⟩ <;>
    simp [fastapiExecuteCode] <;> omega

/-- Code whose second, executable line calls `eval`, while the whole
snippet (after stripping) starts with a comment character. -/
def c7Code : String := "# setup\neval(1)"

/-- Claim C7 counterexample: this snippet holds the denylisted name
`eval` on an executable, non-comment line, yet `execute_code` performs no
pre-execution rejection — the denylist loop tests
`code.strip().startswith('#')` on the whole snippet, which is true here,
so execution proceeds (and with a completing run the call even reports
success). -/
theorem c7_counterexample :
    hasRestrictedExecutable c7Code ∧
    safeExecuteCode (.completes "" "") c7Code =
      { success := true, output := "Code executed successfully (no output)",
        error := "" } := by
  constructor
  · decide
  · decide

/-- Claim C7 as amended: whenever the whole stripped snippet does not
start with `#` and some denylisted name occurs as a substring of the
code, `execute_code` rejects before executing: the result is the
rejection dict naming a denylisted substring, independent of the run
outcome. -/
theorem c7_denylist_rejects_before_execution (code r0 : String)
    (hhash : ¬ pyStartsWith (pyStrip code) "#" = true)
    (hmem : r0 ∈ restrictedFunctions) (hin : pyIn r0 code = true) :
    ∃ r, safetyViolation code = some r ∧ r ∈ restrictedFunctions ∧
      pyIn r code = true ∧
      ∀ run : RunOutcome, safeExecuteCode run code = restrictedErrorDict r := by
  have hsome : (safetyViolation code).isSome := by
    unfold safetyViolation
    rw [List.find?_isSome]
    exact ⟨r0, hmem, by simp [hin, hhash]⟩
  obtain ⟨r, hr⟩ := Option.isSome_iff_exists.mp hsome
  have hp := List.find?_some hr
  have hmem' := List.mem_of_find?_eq_some hr
  simp only [Bool.and_eq_true] at hp
  refine ⟨r, hr, hmem', hp.1, fun run => ?_⟩
  unfold safeExecuteCode
  rw [hr]

/-- Witness for C7 (amended): the one-line snippet `eval(1)` is rejected
with the `eval` rejection dict, whatever the run outcome would have
been. -/
theorem c7_denylist_rejects_witness :
    safeExecuteCode (.completes "ignored" "") "eval(1)" = restrictedErrorDict "eval" := by
  obtain ⟨r, hsv, -, -, hall⟩ :=
    c7_denylist_rejects_before_execution "eval(1)" "eval" (by decide) (by decide) (by decide)
  have hr : r = "eval" := by
    have h2 : safetyViolation "eval(1)" = some "eval" := by decide
    rw [h2] at hsv
    exact (Option.some_inj.mp hsv).symm
  rw [← hr]
  exact hall _

/-- An AI-escalation response that reports success with a rewritten code
and a confidence of 0.5. -/
def c6Ai : AiDict :=
  { success := some true, code := some "y = 2", changes := some ["rewrote"],
    confidence := some q05 }

/-- Claim C6 counterexample: with error text matching no pattern, the
deterministic stage produces the (unchanged, non-empty) code `x = 1` with
confidence 0, the escalation is consulted, and the AI code `y = 2`
becomes the returned rectified code even though the deterministic attempt
did produce code — refuting "its code becomes the result only when the
deterministic attempt failed to produce any code". -/
theorem c6_counterexample :
    (applyPatternFixes none "x = 1" "WeirdError: oops"
        (analyzeError "WeirdError: oops").error_type).1 = "x = 1" ∧
    (rectifyCode none (some c6Ai) "x = 1" "WeirdError: oops").rectified_code = "y = 2" := by
  constructor
  · decide
  · decide

/-- Claim C6 as amended: whenever the deterministic confidence is below
0.7 or no deterministic code was produced, the escalation is consulted;
on AI-reported success its confidence replaces the deterministic one only
when higher (a `max`), and its code (the dict's `code` value, defaulting
to the deterministic code when absent) becomes the returned rectified
code unconditionally — regardless of whether the deterministic attempt
produced code. -/
theorem c6_escalation_code_replaces_unconditionally (astO : Option String)
    (d : AiDict) (code msg : String)
    (hcons : (applyPatternFixes astO code msg (analyzeError msg).error_type).2.2 < q07 ∨
      (applyPatternFixes astO code msg (analyzeError msg).error_type).1 = "")
    (hsucc : d.success.getD false = true) :
    (rectifyCode astO (some d) code msg).rectified_code =
      d.code.getD (applyPatternFixes astO code msg (analyzeError msg).error_type).1 ∧
    (rectifyCode astO (some d) code msg).confidence_score =
      max (applyPatternFixes astO code msg (analyzeError msg).error_type).2.2
        (d.confidence.getD q05) := by
  simp only [rectifyCode]
  rw [if_pos hcons, hsucc]
  simp

/-- Witness for C6 (amended): at the counterexample inputs the AI code
and the maxed confidence are returned. -/
theorem c6_escalation_witness :
    (rectifyCode none (some c6Ai) "x = 1" "WeirdError: oops").rectified_code = "y = 2" ∧
    (rectifyCode none (some c6Ai) "x = 1" "WeirdError: oops").confidence_score = q05 := by
  obtain ⟨h1, h2⟩ :=
    c6_escalation_code_replaces_unconditionally none c6Ai "x = 1" "WeirdError: oops"
      (Or.inl (by decide)) (by decide)
  exact ⟨h1.trans (by decide), h2.trans (by decide)⟩

/-- The literal error message `name 'math' is not defined` of Scenario 2
(note: it does not contain the substring `NameError`). -/
def msgNameOnly : String := "name " ++ sQuote ++ "math" ++ sQuote ++ " is not defined"

/-- The same message prefixed by its exception class, as a real Python
traceback line would carry it. -/
def msgNameErr : String := "NameError: " ++ msgNameOnly

/-- Claim C8 counterexample: invoked with exactly the message
`name 'math' is not defined`, the rectifier applies no pattern fix at all
— the message neither contains `NameError` (case-insensitively,
`nameerror`) nor classifies as that type, so the code is returned
unchanged with confidence 0 rather than gaining `import math` with
confidence 0.9. -/
theorem c8_counterexample :
    (rectifyCode none none "x = math.pi" msgNameOnly).rectified_code = "x = math.pi" ∧
    (rectifyCode none none "x = math.pi" msgNameOnly).confidence_score = 0 := by
  constructor
  · decide
  · decide

/-- A line at which the `_fix_name_error` insertion loop breaks: neither
a `__future__` import, nor a comment, nor blank (after stripping). -/
def isCodeLine (l : String) : Bool :=
  !(pyStartsWith (pyStrip l) "from __future__") &&
  !(pyStartsWith (pyStrip l) "#") && !(pyStrip l = "")

/-- Index of the first non-comment, non-blank, non-`__future__`-import
line, if any. -/
def firstCodeIdx : List String → Option Nat
  | [] => none
  | l :: rest => if isCodeLine l then some 0 else (firstCodeIdx rest).map (· + 1)

lemma insertIdxAux_le (l : List String) :
    ∀ i idx j, idx ≤ i → firstCodeIdx l = some j → insertIdxAux l i idx ≤ i + j := by
  induction l with
  | nil => intro i idx j _ h; simp [firstCodeIdx] at h
  | cons hd tl ih =>
    intro i idx j hle hj
    by_cases hf : pyStartsWith (pyStrip hd) "from __future__" = true
    · have hcl : isCodeLine hd = false := by simp [isCodeLine, hf]
      rw [firstCodeIdx, if_neg (by simp [hcl])] at hj
      obtain ⟨j', hj', rfl⟩ := Option.map_eq_some'.mp hj
      rw [insertIdxAux, if_pos hf]
      have := ih (i + 1) (i + 1) j' le_rfl hj'
      omega
    · by_cases hcb : (pyStartsWith (pyStrip hd) "#" || pyStrip hd = "") = true
      · have hcl : isCodeLine hd = false := by
          rcases Bool.or_eq_true _ _ |>.mp hcb with h | h
          · simp [isCodeLine, h]
          · rw [decide_eq_true_eq] at h
            simp [isCodeLine, h]
        rw [firstCodeIdx, if_neg (by simp [hcl])] at hj
        obtain ⟨j', hj', rfl⟩ := Option.map_eq_some'.mp hj
        rw [insertIdxAux, if_neg hf, if_pos hcb]
        have := ih (i + 1) idx j' (by omega) hj'
        omega
      · have hcl : isCodeLine hd = true := by
          simp only [Bool.or_eq_true, not_or, decide_eq_true_eq] at hcb
          simp [isCodeLine, hf, hcb.1, hcb.2]
        rw [firstCodeIdx, if_pos (by simp [hcl])] at hj
        have hj0 : j = 0 := by simpa using hj.symm
        rw [insertIdxAux, if_neg hf, if_neg hcb]
        omega

lemma insertIdxL_le (lines : List String) (j : Nat)
    (h : firstCodeIdx lines = some j) : insertIdxL lines ≤ j := by
  simpa [insertIdxL] using insertIdxAux_le lines 0 0 j le_rfl h

/-- Claim C8 as amended: with the message carrying its `NameError` class
prefix, for every code string the pattern stage inserts `import math` at
the computed insertion index — which never lies past the first
non-comment, non-blank, non-`__future__`-import line — and returns
confidence 0.9. -/
theorem c8_nameerror_inserts_import (astO : Option String) (code : String) :
    (applyPatternFixes astO code msgNameErr (analyzeError msgNameErr).error_type) =
      (pyJoin "\n" (pyInsert (pyLines code) (insertIdxL (pyLines code)) "import math"),
        ["Added missing import: import math"], q09) ∧
    ∀ j, firstCodeIdx (pyLines code) = some j → insertIdxL (pyLines code) ≤ j := by
  constructor
  · have e1 : (analyzeError msgNameErr).error_type = "NameError" := by decide
    have h1 : trig "from __future__ imports must occur at the beginning"
        msgNameErr "NameError" = false := by decide
    have h2 : trig "SyntaxError" msgNameErr "NameError" = false := by decide
    have h3 : trig "NameError" msgNameErr "NameError" = true := by decide
    have h4 : scanNameNotDefined msgNameErr.data = some "math" := by decide
    have h5 : (commonImports.find? (fun p => p.1 = "math")).map (·.2) =
        some "import math" := by decide
    simp only [applyPatternFixes, e1, h1, h2, h3, Bool.false_eq_true, if_false, if_true,
      fixNameError, h4, h5]
    rfl
  · intro j hj
    exact insertIdxL_le _ j hj

/-- Witness for C8 (amended): on the one-line snippet `x = math.pi` the
missing-import line is inserted at index 0, before the first (and only)
code line. -/
theorem c8_nameerror_inserts_import_witness :
    (applyPatternFixes none "x = math.pi" msgNameErr
        (analyzeError msgNameErr).error_type).1 = "import math\nx = math.pi" ∧
    insertIdxL (pyLines "x = math.pi") ≤ 0 := by
  have h := c8_nameerror_inserts_import none "x = math.pi"
  constructor
  · rw [h.1]
    decide
  · exact h.2 0 (by decide)

/-- The dict `_ai_rectify_code` returns when the model response is
unparsable and carries no fenced code block (`src/code_rectifier.py`
line 360): failure, the unchanged input code, no changes, confidence 0. -/
def aiUnparsable (code : String) : AiDict :=
  { success := some false, code := some code, changes := some [], confidence := some 0 }

/-- No entry of the `error_patterns` catalog triggers on this message and
classified type. -/
def noPatternTrigger (msg etype : String) : Bool :=
  !(trig "from __future__ imports must occur at the beginning" msg etype) &&
  !(trig "SyntaxError" msg etype) && !(trig "NameError" msg etype) &&
  !(trig "ImportError" msg etype) && !(trig "ModuleNotFoundError" msg etype) &&
  !(trig "IndentationError" msg etype) && !(trig "AttributeError" msg etype) &&
  !(trig "TypeError" msg etype) && !(trig "ValueError" msg etype) &&
  !(trig "KeyError" msg etype) && !(trig "IndexError" msg etype)

lemma applyPatternFixes_of_no_trigger (astO : Option String) (code msg etype : String)
    (h : noPatternTrigger msg etype = true) :
    applyPatternFixes astO code msg etype = (code, [], 0) := by
  simp only [noPatternTrigger, Bool.and_eq_true, Bool.not_eq_true'] at h
  obtain ⟨⟨⟨⟨⟨⟨⟨⟨⟨⟨h1, h2⟩, h3⟩, h4⟩, h5⟩, h6⟩, h7⟩, h8⟩, h9⟩, h10⟩, h11⟩ := h
  simp only [applyPatternFixes, h1, h2, h3, h4, h5, h6, h7, h8, h9, h10, h11,
    Bool.false_eq_true, if_false]

lemma rectifyCode_no_fix (astO : Option String) (code msg : String) (d : AiDict)
    (hd : d.success.getD false = false)
    (h : noPatternTrigger msg (analyzeError msg).error_type = true) :
    rectifyCode astO (some d) code msg =
      { success := false, rectified_code := code, changes_made := [],
        error_analysis := analyzeError msg, confidence_score := 0 } := by
  simp only [rectifyCode, applyPatternFixes_of_no_trigger astO code msg _ h]
  rw [if_pos (Or.inl (show (0 : ℚ) < q07 by decide)), hd]
  simp

lemma string_append_ne_empty (s t : String) (h : s ≠ "") : s ++ t ≠ "" := by
  intro hc
  apply h
  have : s.data ++ t.data = [] := by
    have := congrArg String.data hc
    simpa using this
  rcases List.append_eq_nil.mp this with ⟨h1, _⟩
  cases s
  simp_all

lemma driveF_end (bs : Nat → BehaviorF) (n : Nat) (s : WFState) :
    driveF bs n ("end", s) = ("end", s) := by
  cases n <;> simp [driveF]

lemma driveF_step (bs : Nat → BehaviorF) (n : Nat) (cfg : String × WFState)
    (h : cfg.1 ≠ "end") :
    driveF bs (n + 1) cfg = driveF (fun i => bs (i + 1)) n (stepF (bs 0) cfg) := by
  rw [driveF, if_neg h]

/-- Per-step collaborator behaviour for a run in which generation yields
the raw response `c`, the linter and formatter report nothing, execution
fails with error `msg`, and the AI escalation returns unparsable,
codeless output. -/
def c9BF (c msg : String) : BehaviorF :=
  { gen := .ok c, syn := .normal none none, astO := none,
    aiO := some (aiUnparsable (stripResponse c)), exe := .result false "" msg }

/-- State after the generation step of such a run. -/
def c9S1 (prompt c : String) : WFState :=
  { initState prompt with
    generated_code := stripResponse c, current_node := "syntax_checker" }

/-- State after the syntax-check step. -/
def c9S2 (prompt c : String) : WFState :=
  { c9S1 prompt c with current_node := "code_executor" }

/-- State after the failed execution step. -/
def c9S3 (prompt c msg : String) : WFState :=
  { c9S2 prompt c with
    execution_results := { success := false, output := "", error := msg }
    current_node := "code_rectifier" }

/-- State after the single failed rectification step. -/
def c9S4 (prompt c msg : String) : WFState :=
  { c9S3 prompt c msg with
    current_node := "end"
    rectification_attempts := 1
    execution_results :=
      { success := false, output := "", error := "Rectification failed: " ++ msg } }

/-- Claim C9 as amended: in every run in which execution fails with an
error message of an unrecognized kind (no catalog pattern triggers) and
the AI collaborator returns unparsable, codeless output, the workflow
performs exactly ONE escalation and then ends: the final state has
`current_node = "end"`, `rectification_attempts = 1` and execution error
`Rectification failed: <original error>`, and (the generated code being
non-empty) the final report says `workflow_status = "completed"` — not
three escalations, not `failed`, and no ceiling message. -/
theorem c9_single_escalation_ends_run (prompt c msg : String)
    (hg : stripResponse c ≠ "") (hm : msg ≠ "")
    (hnp : noPatternTrigger msg (analyzeError msg).error_type = true) :
    processFinalResult (driveF (fun _ => c9BF c msg) 12
        ("code_generator", initState prompt)).2 =
      { state := c9S4 prompt c msg, workflow_status := "completed",
        error_message := "" } := by
  have e1 : stepF (c9BF c msg) ("code_generator", initState prompt) =
      ("syntax_checker", c9S1 prompt c) := by
    simp [stepF, genStep, c9BF, routeFromGenerator, c9S1, initState]
  have e2 : stepF (c9BF c msg) ("syntax_checker", c9S1 prompt c) =
      ("code_executor", c9S2 prompt c) := by
    simp only [stepF, String.reduceEq, reduceIte, c9BF]
    rw [synStep.eq_def]
    simp only [c9S1, c9S2, initState]
    rw [if_neg (by simpa using hg)]
    simp [routeFromSyntaxChecker]
  have e3 : stepF (c9BF c msg) ("code_executor", c9S2 prompt c) =
      ("code_rectifier", c9S3 prompt c msg) := by
    simp only [stepF, String.reduceEq, reduceIte, c9BF]
    rw [exeStep.eq_def]
    simp only [c9S2, c9S1, c9S3, initState]
    rw [if_neg (by simpa using hg)]
    simp [routeFromExecutor, hm]
  have e4 : stepF (c9BF c msg) ("code_rectifier", c9S3 prompt c msg) =
      ("end", c9S4 prompt c msg) := by
    simp only [stepF, String.reduceEq, reduceIte, c9BF]
    have horig : rectOrigCode (c9S3 prompt c msg) = stripResponse c := by
      simp [rectOrigCode, c9S3, c9S2, c9S1, initState]
    have herr : rectErrMsg (c9S3 prompt c msg) = msg := by
      simp [rectErrMsg, c9S3, c9S2, c9S1, initState, hm]
    rw [rectStepFull, horig, herr,
      rectifyCode_no_fix none (stripResponse c) msg (aiUnparsable (stripResponse c))
        (by rfl) hnp]
    rw [rectStep.eq_def]
    simp only [horig, herr]
    rw [if_neg (by push_neg; exact ⟨hm, hg⟩)]
    rw [if_neg (by simp [c9S3, c9S2, c9S1, initState])]
    simp only [Bool.false_and, Bool.false_eq_true, if_false]
    simp [routeFromRectifier, c9S3, c9S2, c9S1, c9S4, initState]
  rw [driveF_step _ _ _ (by simp), e1, driveF_step _ _ _ (by simp), e2,
    driveF_step _ _ _ (by simp), e3, driveF_step _ _ _ (by simp), e4, driveF_end]
  have hne : "Rectification failed: " ++ msg ≠ "" :=
    string_append_ne_empty _ _ (by decide)
  have hfc : finalCode (c9S4 prompt c msg) = stripResponse c := by
    simp [finalCode, c9S4, c9S3, c9S2, c9S1, initState]
  simp only [processFinalResult, hfc]
  rw [if_pos (Or.inr hg)]
  simp [c9S4, c9S3, c9S2, c9S1, initState]

/-- Witness for C9 (amended): a concrete such run — generation yields
`x = 5`, execution fails with `MysteryFailure: gone wrong`, the AI output
is unparsable — ends after one escalation with the stated final state. -/
theorem c9_single_escalation_witness :
    processFinalResult (driveF (fun _ => c9BF "x = 5" "MysteryFailure: gone wrong") 12
        ("code_generator", initState "p")).2 =
      { state := c9S4 "p" "x = 5" "MysteryFailure: gone wrong",
        workflow_status := "completed", error_message := "" } :=
  c9_single_escalation_ends_run "p" "x = 5" "MysteryFailure: gone wrong"
    (by decide) (by decide) (by decide)

/-- Claim C9 counterexample: in the concrete run above, after the run
ends the counter records ONE rectification attempt (not three
escalations), the final execution error is `Rectification failed: ...`
(no mention of the rectification ceiling), and the workflow status is
`completed` (not `failed`) — each of the three claimed facts fails. -/
theorem c9_counterexample :
    (processFinalResult (driveF (fun _ => c9BF "print(1)" "WeirdError: oops") 12
        ("code_generator", initState "p")).2).state.rectification_attempts = 1 ∧
    (processFinalResult (driveF (fun _ => c9BF "print(1)" "WeirdError: oops") 12
        ("code_generator", initState "p")).2).state.execution_results.error =
      "Rectification failed: WeirdError: oops" ∧
    (processFinalResult (driveF (fun _ => c9BF "print(1)" "WeirdError: oops") 12
        ("code_generator", initState "p")).2).workflow_status = "completed" := by
  refine ⟨?_, ?_, ?_⟩ <;> decide
